import Mathlib

/-!
Verification of the lending-liquidation-sentinel core against its code.

Python floats are modelled as exact rationals (`ℚ`), with a dedicated
`PyFloat` type whenever a computation can produce `float('inf')`.
Python dicts are modelled as insertion-ordered association lists with
overwrite-on-insert semantics.
-/

namespace LendingSentinel

/-- A Python float value that may be positive infinity. -/
inductive PyFloat where
  | inf : PyFloat
  | fin : ℚ → PyFloat
deriving DecidableEq, Repr

/-! ## Risk calculator: `src/lending_monitor.py`, class `LendingMonitor` -/

/-- `LendingMonitor.calculate_health_factor` (lending_monitor.py lines 109-131):
returns `float('inf')` when `total_debt_usd == 0`, otherwise
`(total_collateral_usd * liquidation_threshold) / total_debt_usd`. -/
def calculate_health_factor (total_collateral_usd total_debt_usd
    liquidation_threshold : ℚ) : PyFloat :=
  if total_debt_usd = 0 then PyFloat.inf
  else PyFloat.fin ((total_collateral_usd * liquidation_threshold) / total_debt_usd)

/-- Default value of the `liquidation_bonus` parameter of
`LendingMonitor.calculate_liquidation_price` (lending_monitor.py line 139). -/
def DEFAULT_LIQUIDATION_BONUS : ℚ := 105/100

/-- `LendingMonitor.calculate_liquidation_price` (lending_monitor.py lines 133-162):
returns `0` when `collateral_amount == 0`, otherwise
`(debt_amount * debt_price) / (collateral_amount * (liquidation_threshold / liquidation_bonus))`. -/
def calculate_liquidation_price (collateral_amount debt_amount debt_price
    liquidation_threshold liquidation_bonus : ℚ) : ℚ :=
  if collateral_amount = 0 then 0
  else
    let effective_threshold := liquidation_threshold / liquidation_bonus
    (debt_amount * debt_price) / (collateral_amount * effective_threshold)

/-- Default value of the `threshold` parameter of `LendingMonitor.should_alert`
(lending_monitor.py line 164). -/
def DEFAULT_ALERT_THRESHOLD : ℚ := 6/5

/-- `LendingMonitor.should_alert` (lending_monitor.py lines 164-180): the critical
cutoff `1.05` is hard-coded; the warning cutoff is the `threshold` parameter. -/
def should_alert (health_factor threshold : ℚ) : Bool × String :=
  if health_factor < 105/100 then (true, "critical")
  else if health_factor < threshold then (true, "warning")
  else (false, "safe")

/-! ## Claim theorems for the risk calculator -/

/-- C1: for `collateralUsd ≥ 0`, `debtUsd ≥ 0`, `liquidationThreshold ∈ [0,1]`,
`calculate_health_factor` returns +∞ exactly when `debtUsd = 0`, otherwise
`(collateralUsd * threshold) / debtUsd`; every finite result is nonnegative;
and `healthFactor(100, 50, 0.8) = 1.6`, `healthFactor(100, 100, 0.8) = 0.8`. -/
theorem C1_health_factor (c d t : ℚ) (hc : 0 ≤ c) (hd : 0 ≤ d)
    (ht0 : 0 ≤ t) (ht1 : t ≤ 1) :
    (d = 0 → calculate_health_factor c d t = PyFloat.inf) ∧
    (d ≠ 0 → calculate_health_factor c d t = PyFloat.fin ((c * t) / d)) ∧
    (∀ q : ℚ, calculate_health_factor c d t = PyFloat.fin q → 0 ≤ q) ∧
    calculate_health_factor 100 50 (4/5) = PyFloat.fin (8/5) ∧
    calculate_health_factor 100 100 (4/5) = PyFloat.fin (4/5) := by
  refine ⟨fun h => by simp [calculate_health_factor, h],
          fun h => by simp [calculate_health_factor, h],
          ?_, by norm_num [calculate_health_factor],
          by norm_num [calculate_health_factor]⟩
  intro q hq
  unfold calculate_health_factor at hq
  split at hq
  · exact absurd hq (by simp)
  · have : (c * t) / d = q := by simpa using hq
    have hnn : 0 ≤ (c * t) / d := div_nonneg (mul_nonneg hc ht0) hd
    simpa [this] using hnn

/-- C1 witness: the theorem instantiated at `(100, 50, 0.8)`. -/
theorem C1_health_factor_witness :
    calculate_health_factor 100 50 (4/5) = PyFloat.fin (8/5) :=
  (C1_health_factor 100 50 (4/5) (by norm_num) (by norm_num) (by norm_num)
    (by norm_num)).2.2.2.1

/-- C3 counterexample: with collateral = debt = debtPrice = threshold = 1 and
bonuses `1 < 2`, the computed liquidation price at the smaller bonus is NOT
greater than at the larger bonus (it is smaller: 1 versus 2), refuting the
claimed strict decrease in the bonus. -/
theorem C3_counterexample :
    (1 : ℚ) < 2 ∧
    ¬ (calculate_liquidation_price 1 1 1 1 2 < calculate_liquidation_price 1 1 1 1 1) := by
  constructor
  · norm_num
  · intro h
    have h1 : calculate_liquidation_price 1 1 1 1 2 = 2 := by
      norm_num [calculate_liquidation_price]
    have h2 : calculate_liquidation_price 1 1 1 1 1 = 1 := by
      norm_num [calculate_liquidation_price]
    rw [h1, h2] at h
    exact absurd h (by norm_num)

/-- C3 amended: for fixed positive collateral, debt, debt price and threshold in
(0,1], `calculate_liquidation_price` is strictly INCREASING in the liquidation
bonus (the code divides the threshold by the bonus, so a larger bonus yields a
HIGHER trigger price than the naive formula). -/
theorem C3_liq_price_increasing (c d p t b1 b2 : ℚ) (hc : 0 < c) (hd : 0 < d)
    (hp : 0 < p) (ht : 0 < t) (ht1 : t ≤ 1) (hb1 : 0 < b1) (hb : b1 < b2) :
    calculate_liquidation_price c d p t b1 < calculate_liquidation_price c d p t b2 := by
  unfold calculate_liquidation_price
  rw [if_neg hc.ne', if_neg hc.ne']
  have hb2 : 0 < b2 := hb1.trans hb
  have hinner : t / b2 < t / b1 := div_lt_div_of_pos_left ht hb1 hb
  have h1 : 0 < c * (t / b2) := by positivity
  have h2 : c * (t / b2) < c * (t / b1) := by
    exact mul_lt_mul_of_pos_left hinner hc
  exact div_lt_div_of_pos_left (by positivity) h1 h2

/-- C3 witness: strict increase at collateral 1, debt 1, price 1, threshold 1,
bonuses 1 and 2. -/
theorem C3_liq_price_increasing_witness :
    calculate_liquidation_price 1 1 1 1 1 < calculate_liquidation_price 1 1 1 1 2 :=
  C3_liq_price_increasing 1 1 1 1 1 2 (by norm_num) (by norm_num) (by norm_num)
    (by norm_num) (by norm_num) (by norm_num) (by norm_num)

/-- C4: `calculate_liquidation_price` returns 0 when collateral is 0 regardless
of the other arguments, otherwise `(debt * debtPrice) / (collateral * (threshold
/ bonus))`, and the bonus parameter defaults to 1.05. -/
theorem C4_liq_price_formula (c d p t b : ℚ) :
    (c = 0 → calculate_liquidation_price c d p t b = 0) ∧
    (c ≠ 0 → calculate_liquidation_price c d p t b = (d * p) / (c * (t / b))) ∧
    DEFAULT_LIQUIDATION_BONUS = 105/100 := by
  refine ⟨fun h => by simp [calculate_liquidation_price, h],
          fun h => by simp [calculate_liquidation_price, h],
          rfl⟩

/-- C4 witness: the formula instantiated at collateral 2, debt 3, price 5,
threshold 1, bonus 2. -/
theorem C4_liq_price_formula_witness :
    calculate_liquidation_price 2 3 5 1 2 = (3 * 5) / (2 * (1 / 2)) :=
  (C4_liq_price_formula 2 3 5 1 2).2.1 (by norm_num)

/-- C5: with the default thresholds (warning 1.2, hard-coded critical 1.05),
`should_alert` yields `(true, "critical")` below 1.05, `(true, "warning")` in
[1.05, 1.2), `(false, "safe")` from 1.2 up; boundaries are exclusive-below:
1.049 is critical, 1.05 is warning, 1.2 is safe. -/
theorem C5_severity (hf : ℚ) :
    (hf < 105/100 → should_alert hf DEFAULT_ALERT_THRESHOLD = (true, "critical")) ∧
    (105/100 ≤ hf → hf < 6/5 → should_alert hf DEFAULT_ALERT_THRESHOLD = (true, "warning")) ∧
    (6/5 ≤ hf → should_alert hf DEFAULT_ALERT_THRESHOLD = (false, "safe")) ∧
    should_alert (1049/1000) DEFAULT_ALERT_THRESHOLD = (true, "critical") ∧
    should_alert (105/100) DEFAULT_ALERT_THRESHOLD = (true, "warning") ∧
    should_alert (6/5) DEFAULT_ALERT_THRESHOLD = (false, "safe") := by
  refine ⟨fun h => by simp [should_alert, h],
          fun h1 h2 => ?_,
          fun h => ?_, by norm_num [should_alert, DEFAULT_ALERT_THRESHOLD],
          by norm_num [should_alert, DEFAULT_ALERT_THRESHOLD],
          by norm_num [should_alert, DEFAULT_ALERT_THRESHOLD]⟩
  · have hn : ¬ hf < 105/100 := not_lt.mpr h1
    simp [should_alert, DEFAULT_ALERT_THRESHOLD, hn, h2]
  · have hn1 : ¬ hf < 105/100 := not_lt.mpr (le_trans (by norm_num) h)
    have hn2 : ¬ hf < 6/5 := not_lt.mpr h
    simp [should_alert, DEFAULT_ALERT_THRESHOLD, hn1, hn2]

/-- C5 witness: the general tier bounds instantiated at health factor 1. -/
theorem C5_severity_witness :
    should_alert 1 DEFAULT_ALERT_THRESHOLD = (true, "critical") :=
  (C5_severity 1).1 (by norm_num)

/-! ## Protocol adapters: `src/protocol_interfaces.py` -/

/-- The normalized account-data dict produced by
`AaveV3Interface.get_user_account_data` (and by the Compound variant). -/
structure AccountData where
  total_collateral_usd : ℚ
  total_debt_usd : ℚ
  available_borrows_usd : ℚ
  liquidation_threshold : ℚ
  ltv : ℚ
  health_factor : PyFloat
deriving DecidableEq, Repr

/-- The normalization step of `AaveV3Interface.get_user_account_data`
(protocol_interfaces.py lines 158-167), applied to the six raw uint256 values
returned by `getUserAccountData`: collateral, debt and available borrows are
divided by 1e8, threshold and ltv by 1e4, health factor by 1e18. Dividing a
uint256 by 1e18 always yields a finite float, so the result is `PyFloat.fin`
for every raw input. Spark and Radiant inherit this method unchanged. -/
def aave_get_user_account_data (total_collateral_base total_debt_base
    available_borrows_base current_liquidation_threshold ltv_raw
    health_factor_raw : ℕ) : AccountData :=
  { total_collateral_usd := (total_collateral_base : ℚ) / 10^8
    total_debt_usd := (total_debt_base : ℚ) / 10^8
    available_borrows_usd := (available_borrows_base : ℚ) / 10^8
    liquidation_threshold := (current_liquidation_threshold : ℚ) / 10^4
    ltv := (ltv_raw : ℚ) / 10^4
    health_factor := PyFloat.fin ((health_factor_raw : ℚ) / 10^18) }

/-- The raw `healthFactor` value Aave-family pools return for an account with
no debt: `type(uint256).max`. -/
def AAVE_NO_DEBT_RAW_HEALTH_FACTOR : ℕ := 2^256 - 1

/-! ## Position monitor: `src/lending_monitor.py`, `monitor_position` -/

/-- `CHAIN_NAMES` table (protocol_interfaces.py lines 23-31). -/
def CHAIN_NAMES : List (ℕ × String) :=
  [(1, "Ethereum"), (137, "Polygon"), (42161, "Arbitrum"), (10, "Optimism"),
   (8453, "Base"), (43114, "Avalanche"), (56, "BSC")]

/-- `CHAIN_NAMES.get(chain_id, f"Chain {chain_id}")` (lending_monitor.py line 92). -/
def chain_name_of (chain_id : ℕ) : String :=
  match CHAIN_NAMES.find? (fun p => p.1 = chain_id) with
  | some p => p.2
  | none => "Chain " ++ toString chain_id

/-- The result dict assembled by `LendingMonitor.monitor_position`. -/
structure PositionResult where
  chain_name : String
  health_factor : PyFloat
  liq_price : Option ℚ
  total_collateral_usd : ℚ
  total_debt_usd : ℚ
  liquidation_threshold : ℚ
  ltv : ℚ
deriving DecidableEq, Repr

/-- The result-assembly step of `LendingMonitor.monitor_position`
(lending_monitor.py lines 81-103) after a successful fetch: `liq_price` is
`None` unless both `total_debt_usd > 0` and `total_collateral_usd > 0`, in
which case it is `debt / (collateral * liquidation_threshold)`. -/
def monitor_position (chain_id : ℕ) (account_data : AccountData) : PositionResult :=
  let liq_price : Option ℚ :=
    if account_data.total_debt_usd > 0 ∧ account_data.total_collateral_usd > 0 then
      some (account_data.total_debt_usd /
        (account_data.total_collateral_usd * account_data.liquidation_threshold))
    else none
  { chain_name := chain_name_of chain_id
    health_factor := account_data.health_factor
    liq_price := liq_price
    total_collateral_usd := account_data.total_collateral_usd
    total_debt_usd := account_data.total_debt_usd
    liquidation_threshold := account_data.liquidation_threshold
    ltv := account_data.ltv }

/-! ## Claim theorems for the adapters and the monitor -/

/-- C6: Aave-family normalization divides collateral, debt and available
borrows by 1e8, threshold and ltv by 1e4, health factor by 1e18; the raw tuple
(500000000000, 250000000000, 0, 8250, 8000, 1650000000000000000) normalizes to
(5000, 2500, 0, 0.825, 0.8, 1.65). -/
theorem C6_aave_normalization (tc td ab lt lv hf : ℕ) :
    aave_get_user_account_data tc td ab lt lv hf =
      { total_collateral_usd := (tc : ℚ) / 10^8
        total_debt_usd := (td : ℚ) / 10^8
        available_borrows_usd := (ab : ℚ) / 10^8
        liquidation_threshold := (lt : ℚ) / 10^4
        ltv := (lv : ℚ) / 10^4
        health_factor := PyFloat.fin ((hf : ℚ) / 10^18) } ∧
    aave_get_user_account_data 500000000000 250000000000 0 8250 8000
        1650000000000000000 =
      { total_collateral_usd := 5000
        total_debt_usd := 2500
        available_borrows_usd := 0
        liquidation_threshold := 825/1000
        ltv := 4/5
        health_factor := PyFloat.fin (165/100) } := by
  refine ⟨rfl, ?_⟩
  simp only [aave_get_user_account_data, AccountData.mk.injEq, PyFloat.fin.injEq]
  norm_num

/-- C2 is refuted by the code: `AaveV3Interface.get_user_account_data` (shared
by Spark and Radiant) normalizes EVERY raw health factor, including the
no-debt sentinel `2^256 - 1`, to a finite value — the sentinel becomes
`(2^256 - 1) / 1e18` (about 1.16e59), not positive infinity. -/
theorem C2_no_debt_health_factor_finite :
    (∀ tc td ab lt lv hf : ℕ,
      (aave_get_user_account_data tc td ab lt lv hf).health_factor ≠ PyFloat.inf) ∧
    (aave_get_user_account_data 0 0 0 0 0 AAVE_NO_DEBT_RAW_HEALTH_FACTOR).health_factor
      = PyFloat.fin ((AAVE_NO_DEBT_RAW_HEALTH_FACTOR : ℚ) / 10^18) :=
  ⟨fun _ _ _ _ _ _ h => PyFloat.noConfusion h, rfl⟩

/-- C7: the monitor result carries a liquidation price only when both debt and
collateral are strictly positive; in every other case the field is `none`; in
particular a wallet with zero collateral and zero debt gets `none`. -/
theorem C7_liq_price_presence (chain_id : ℕ) (a : AccountData) :
    ((monitor_position chain_id a).liq_price ≠ none →
      a.total_debt_usd > 0 ∧ a.total_collateral_usd > 0) ∧
    (¬ (a.total_debt_usd > 0 ∧ a.total_collateral_usd > 0) →
      (monitor_position chain_id a).liq_price = none) ∧
    (a.total_collateral_usd = 0 → a.total_debt_usd = 0 →
      (monitor_position chain_id a).liq_price = none) := by
  refine ⟨fun h => ?_, fun h => ?_, fun h1 h2 => ?_⟩
  · by_contra hcon
    exact h (by simp [monitor_position, hcon])
  · simp [monitor_position, h]
  · simp [monitor_position, h1, h2]

/-- C7 witness: the all-zero account on chain 1 yields an absent liquidation
price. -/
theorem C7_liq_price_presence_witness :
    (monitor_position 1
      { total_collateral_usd := 0, total_debt_usd := 0, available_borrows_usd := 0,
        liquidation_threshold := 0, ltv := 0, health_factor := PyFloat.inf }).liq_price
      = none :=
  (C7_liq_price_presence 1
    { total_collateral_usd := 0, total_debt_usd := 0, available_borrows_usd := 0,
      liquidation_threshold := 0, ltv := 0, health_factor := PyFloat.inf }).2.2 rfl rfl

/-! ## Adapter construction order: `src/protocol_interfaces.py` constructors

The constructors are modelled as traces recording how many network round trips
(the `w3.is_connected()` connectivity check of `ProtocolInterface.__init__`)
happen before the constructor returns or raises. An unreachable provider is
modelled by the `connected` flag. -/

/-- `ProtocolType` enum (protocol_interfaces.py lines 14-19). -/
inductive ProtocolType where
  | aave_v3 : ProtocolType
  | compound_v3 : ProtocolType
  | spark : ProtocolType
  | radiant : ProtocolType
deriving DecidableEq, Repr

/-- Chains with an entry in `AAVE_V3_POOL_ADDRESSES` (lines 34-41). -/
def AAVE_V3_POOL_CHAINS : List ℕ := [1, 137, 42161, 10, 8453, 43114]

/-- Chains with an entry in `COMPOUND_V3_COMET_ADDRESSES` (lines 43-48). -/
def COMPOUND_V3_COMET_CHAINS : List ℕ := [1, 137, 42161, 8453]

/-- Chains with an entry in `SPARK_POOL_ADDRESSES` (lines 50-52). -/
def SPARK_POOL_CHAINS : List ℕ := [1]

/-- Chains with an entry in `RADIANT_POOL_ADDRESSES` (lines 54-58). -/
def RADIANT_POOL_CHAINS : List ℕ := [42161, 43114, 56]

/-- The chains for which a protocol has a registered contract address. -/
def supportedChains : ProtocolType → List ℕ
  | ProtocolType.aave_v3 => AAVE_V3_POOL_CHAINS
  | ProtocolType.compound_v3 => COMPOUND_V3_COMET_CHAINS
  | ProtocolType.spark => SPARK_POOL_CHAINS
  | ProtocolType.radiant => RADIANT_POOL_CHAINS

/-- How adapter construction can fail: `ConnectionError` from the base-class
connectivity check, or `ValueError` ("not supported on chain") from the
address-table check. -/
inductive InitError where
  | connectionFailure : InitError
  | unsupportedConfiguration : InitError
deriving DecidableEq, Repr

/-- Outcome of running a constructor: how many network calls were attempted
before it returned, and the error it raised (`none` = constructed). -/
structure InitOutcome where
  network_calls : ℕ
  result : Option InitError
deriving DecidableEq, Repr

/-- `ProtocolInterface.__init__` (protocol_interfaces.py lines 116-121):
builds the provider and performs the `is_connected()` check — one network
round trip — raising `ConnectionError` when unreachable. -/
def protocolInterface_init (connected : Bool) : InitOutcome :=
  { network_calls := 1
    result := if connected then none else some InitError.connectionFailure }

/-- `AaveV3Interface.__init__` (lines 131-141): runs the base-class
constructor (connectivity check) FIRST, and only then checks
`AAVE_V3_POOL_ADDRESSES` for the chain. -/
def aaveV3_init (chain_id : ℕ) (connected : Bool) : InitOutcome :=
  let base := protocolInterface_init connected
  match base.result with
  | some e => { network_calls := base.network_calls, result := some e }
  | none =>
      if chain_id ∈ AAVE_V3_POOL_CHAINS then
        { network_calls := base.network_calls, result := none }
      else
        { network_calls := base.network_calls
          result := some InitError.unsupportedConfiguration }

/-- `CompoundV3Interface.__init__` (lines 177-187): same order as Aave —
base-class connectivity check first, address-table check second. -/
def compoundV3_init (chain_id : ℕ) (connected : Bool) : InitOutcome :=
  let base := protocolInterface_init connected
  match base.result with
  | some e => { network_calls := base.network_calls, result := some e }
  | none =>
      if chain_id ∈ COMPOUND_V3_COMET_CHAINS then
        { network_calls := base.network_calls, result := none }
      else
        { network_calls := base.network_calls
          result := some InitError.unsupportedConfiguration }

/-- `SparkInterface.__init__` (lines 233-244): checks `SPARK_POOL_ADDRESSES`
BEFORE invoking `ProtocolInterface.__init__`, so an unsupported chain raises
with zero network calls. -/
def spark_init (chain_id : ℕ) (connected : Bool) : InitOutcome :=
  if chain_id ∈ SPARK_POOL_CHAINS then
    let base := protocolInterface_init connected
    match base.result with
    | some e => { network_calls := base.network_calls, result := some e }
    | none => { network_calls := base.network_calls, result := none }
  else
    { network_calls := 0, result := some InitError.unsupportedConfiguration }

/-- `RadiantInterface.__init__` (lines 250-261): same order as Spark. -/
def radiant_init (chain_id : ℕ) (connected : Bool) : InitOutcome :=
  if chain_id ∈ RADIANT_POOL_CHAINS then
    let base := protocolInterface_init connected
    match base.result with
    | some e => { network_calls := base.network_calls, result := some e }
    | none => { network_calls := base.network_calls, result := none }
  else
    { network_calls := 0, result := some InitError.unsupportedConfiguration }

/-- `get_protocol_interface` factory (lines 264-280). -/
def get_protocol_interface (protocol : ProtocolType) (chain_id : ℕ)
    (connected : Bool) : InitOutcome :=
  match protocol with
  | ProtocolType.aave_v3 => aaveV3_init chain_id connected
  | ProtocolType.compound_v3 => compoundV3_init chain_id connected
  | ProtocolType.spark => spark_init chain_id connected
  | ProtocolType.radiant => radiant_init chain_id connected

/-- C8 counterexample: Aave V3 on chain 56 (BSC) has no registered pool
address, yet its constructor performs the connectivity check (one network
call) before raising the unsupported-configuration error, refuting "before
any network call" for every protocol variant. -/
theorem C8_counterexample :
    56 ∉ supportedChains ProtocolType.aave_v3 ∧
    get_protocol_interface ProtocolType.aave_v3 56 true =
      { network_calls := 1, result := some InitError.unsupportedConfiguration } ∧
    (1 : ℕ) ≠ 0 := by
  refine ⟨by decide, ?_, by decide⟩
  rfl

/-- C8 amended: on a chain with no registered address, Spark and Radiant fail
with the unsupported-configuration error before any network call; Aave V3 and
Compound V3 run the base-class connectivity check first, so they raise the
unsupported-configuration error only after one network call when the provider
is reachable, and a connection failure instead when it is not. -/
theorem C8_unsupported_pair (protocol : ProtocolType) (chain_id : ℕ)
    (connected : Bool) (h : chain_id ∉ supportedChains protocol) :
    (protocol = ProtocolType.spark ∨ protocol = ProtocolType.radiant →
      get_protocol_interface protocol chain_id connected =
        { network_calls := 0, result := some InitError.unsupportedConfiguration }) ∧
    (protocol = ProtocolType.aave_v3 ∨ protocol = ProtocolType.compound_v3 →
      connected = true →
      get_protocol_interface protocol chain_id connected =
        { network_calls := 1, result := some InitError.unsupportedConfiguration }) ∧
    (protocol = ProtocolType.aave_v3 ∨ protocol = ProtocolType.compound_v3 →
      connected = false →
      get_protocol_interface protocol chain_id connected =
        { network_calls := 1, result := some InitError.connectionFailure }) := by
  refine ⟨fun hp => ?_, fun hp hc => ?_, fun hp hc => ?_⟩
  · rcases hp with hp | hp <;> subst hp <;>
      simp_all [get_protocol_interface, spark_init, radiant_init, supportedChains]
  · rcases hp with hp | hp <;> subst hp <;> subst hc <;>
      simp_all [get_protocol_interface, aaveV3_init, compoundV3_init,
        protocolInterface_init, supportedChains]
  · rcases hp with hp | hp <;> subst hp <;> subst hc <;>
      simp_all [get_protocol_interface, aaveV3_init, compoundV3_init,
        protocolInterface_init, supportedChains]

/-- C8 witness: Spark on Polygon (chain 137) fails with the
unsupported-configuration error and zero network calls. -/
theorem C8_unsupported_pair_witness :
    get_protocol_interface ProtocolType.spark 137 true =
      { network_calls := 0, result := some InitError.unsupportedConfiguration } :=
  (C8_unsupported_pair ProtocolType.spark 137 true (by decide)).1 (Or.inl rfl)

/-! ## Price feed: `src/price_feed.py`, `get_token_prices`

Python dicts are modelled as insertion-ordered association lists whose
insert overwrites the existing binding for a key (dicts built from empty by
such inserts have unique keys, matching dict semantics). The HTTP response
body `{id: {"usd": ...}}` is modelled as a list of pairs
`(id, some usd)` / `(id, none)`, the `none` marking an entry without a
`"usd"` field; the response is a parameter of the model. -/

/-- Python `str.upper()` for the ASCII symbols this table uses: uppercase
every character. -/
def pyUpper (s : String) : String := String.mk (s.data.map Char.toUpper)

/-- Python dict assignment `d[k] = v`: overwrite the binding if the key is
present, else append, preserving insertion order. -/
def dictInsert {α : Type} : List (String × α) → String → α → List (String × α)
  | [], k, v => [(k, v)]
  | p :: rest, k, v =>
      if p.1 = k then (k, v) :: rest else p :: dictInsert rest k v

/-- Python dict lookup `d.get(k)` / `d[k]`. -/
def dictFind {α : Type} : List (String × α) → String → Option α
  | [], _ => none
  | p :: rest, k => if p.1 = k then some p.2 else dictFind rest k

/-- `COINGECKO_IDS` table (price_feed.py lines 14-32). -/
def COINGECKO_IDS : List (String × String) :=
  [("ETH", "ethereum"), ("WETH", "ethereum"), ("MATIC", "matic-network"),
   ("WMATIC", "matic-network"), ("USDC", "usd-coin"), ("USDT", "tether"),
   ("DAI", "dai"), ("WBTC", "wrapped-bitcoin"), ("LINK", "chainlink"),
   ("AAVE", "aave"), ("CRV", "curve-dao-token"), ("UNI", "uniswap"),
   ("SUSHI", "sushi"), ("AVAX", "avalanche-2"), ("WAVAX", "avalanche-2"),
   ("BNB", "binancecoin"), ("WBNB", "binancecoin")]

/-- `COINGECKO_IDS.get(symbol)` (price_feed.py line 52, after `.upper()`). -/
def cgLookup (symbol : String) : Option String := dictFind COINGECKO_IDS symbol

/-- The first loop of `get_token_prices` (price_feed.py lines 51-57): builds
the `coingecko_ids` request list and the `symbol_to_id` dict; an unmapped
symbol contributes to neither. Later symbols overwrite earlier
`symbol_to_id` bindings for a shared id. -/
def buildIdsAux : List String → List String → List (String × String) →
    List String × List (String × String)
  | [], ids, symbol_to_id => (ids, symbol_to_id)
  | s :: rest, ids, symbol_to_id =>
      match cgLookup (pyUpper s) with
      | some cg => buildIdsAux rest (ids ++ [cg]) (dictInsert symbol_to_id cg (pyUpper s))
      | none => buildIdsAux rest ids symbol_to_id

/-- The `coingecko_ids` list and `symbol_to_id` dict for an input batch. -/
def buildIds (symbols : List String) : List String × List (String × String) :=
  buildIdsAux symbols [] []

/-- The response-parsing loop of `get_token_prices` (price_feed.py lines
74-78): only entries carrying a `"usd"` field are stored; a `KeyError` from
`symbol_to_id[cg_id]` is caught by the surrounding handler, which returns the
prices accumulated so far. -/
def parseResponse (symbol_to_id : List (String × String)) :
    List (String × Option ℚ) → List (String × ℚ) → List (String × ℚ)
  | [], prices => prices
  | (cg, some usd) :: rest, prices =>
      (match dictFind symbol_to_id cg with
       | some symbol => parseResponse symbol_to_id rest (dictInsert prices symbol usd)
       | none => prices)
  | (_, none) :: rest, prices => parseResponse symbol_to_id rest prices

/-- Result of a `get_token_prices` call: the CoinGecko ids put in the request
URL (empty list = no network call was made) and the returned price dict. -/
structure FetchResult where
  requested_ids : List String
  prices : List (String × ℚ)
deriving DecidableEq, Repr

/-- `get_token_prices` (price_feed.py lines 35-88), with the aggregator's
response body as a parameter: when no symbol is mapped the function returns
the empty dict without a network call; otherwise the mapped ids are requested
and the response parsed. -/
def get_token_prices (symbols : List String)
    (response : List (String × Option ℚ)) : FetchResult :=
  let ids := (buildIds symbols).1
  if ids.isEmpty then { requested_ids := [], prices := [] }
  else { requested_ids := ids
         prices := parseResponse (buildIds symbols).2 response [] }

/-- The last symbol of the batch (uppercased) that maps to a given CoinGecko
id, if any — the binding `symbol_to_id` ends up holding for that id. -/
def lastMapped : List String → String → Option String
  | [], _ => none
  | s :: rest, cg =>
      match lastMapped rest cg with
      | some u => some u
      | none => if cgLookup (pyUpper s) = some cg then some (pyUpper s) else none

/-! ## Dict and price-feed lemmas -/

theorem mem_dictInsert {α : Type} (d : List (String × α)) (k : String) (v : α)
    (q : String × α) (h : q ∈ dictInsert d k v) : q ∈ d ∨ q = (k, v) := by
  induction d with
  | nil => simpa [dictInsert] using h
  | cons p rest ih =>
    by_cases hpk : p.1 = k
    · rw [dictInsert, if_pos hpk] at h
      rcases List.mem_cons.mp h with h' | h'
      · exact Or.inr h'
      · exact Or.inl (List.mem_cons_of_mem _ h')
    · rw [dictInsert, if_neg hpk] at h
      rcases List.mem_cons.mp h with h' | h'
      · exact Or.inl (by simp [h'])
      · rcases ih h' with h'' | h''
        · exact Or.inl (List.mem_cons_of_mem _ h'')
        · exact Or.inr h''

theorem dictFind_mem {α : Type} (d : List (String × α)) (k : String) (v : α)
    (h : dictFind d k = some v) : (k, v) ∈ d := by
  induction d with
  | nil => simp [dictFind] at h
  | cons p rest ih =>
    by_cases hpk : p.1 = k
    · rw [dictFind, if_pos hpk] at h
      have hp : p = (k, v) := by
        obtain ⟨p1, p2⟩ := p
        simp only at hpk
        injection h with h2
        simp at h2
        simp [hpk, h2]
      simp [hp]
    · rw [dictFind, if_neg hpk] at h
      exact List.mem_cons_of_mem _ (ih h)

theorem dictFind_dictInsert {α : Type} (d : List (String × α)) (k k' : String)
    (v : α) :
    dictFind (dictInsert d k v) k' = if k' = k then some v else dictFind d k' := by
  induction d with
  | nil =>
    by_cases h : k' = k
    · simp [dictInsert, dictFind, h]
    · simp [dictInsert, dictFind, h, Ne.symm h]
  | cons p rest ih =>
    by_cases hpk : p.1 = k
    · rw [dictInsert, if_pos hpk]
      by_cases h : k' = k
      · simp [dictFind, h]
      · rw [dictFind, if_neg (by simpa using fun hh => h hh.symm)]
        rw [if_neg h, dictFind, if_neg (by rw [hpk]; exact fun hh => h hh.symm)]
    · rw [dictInsert, if_neg hpk]
      by_cases hp' : p.1 = k'
      · have hk' : ¬ k' = k := fun hh => hpk (hp'.trans hh)
        rw [dictFind, if_pos hp', if_neg hk', dictFind, if_pos hp']
      · rw [dictFind, if_neg hp', ih]
        by_cases h : k' = k
        · simp [h]
        · rw [if_neg h, if_neg h, dictFind, if_neg hp']

theorem buildIdsAux_fst (symbols : List String) :
    ∀ ids symbol_to_id, (buildIdsAux symbols ids symbol_to_id).1
      = ids ++ symbols.filterMap (fun s => cgLookup (pyUpper s)) := by
  induction symbols with
  | nil => intro ids s2i; simp [buildIdsAux]
  | cons s rest ih =>
    intro ids s2i
    cases hcg : cgLookup (pyUpper s) with
    | some cg => simp [buildIdsAux, hcg, ih, List.filterMap_cons]
    | none => simp [buildIdsAux, hcg, ih, List.filterMap_cons]

theorem buildIdsAux_snd_mem (symbols : List String) :
    ∀ ids symbol_to_id cg sym,
      (cg, sym) ∈ (buildIdsAux symbols ids symbol_to_id).2 →
      (cg, sym) ∈ symbol_to_id ∨
        ∃ s ∈ symbols, sym = pyUpper s ∧ cgLookup (pyUpper s) = some cg := by
  induction symbols with
  | nil => intro ids s2i cg sym h; exact Or.inl (by simpa [buildIdsAux] using h)
  | cons s rest ih =>
    intro ids s2i cg sym h
    cases hcg : cgLookup (pyUpper s) with
    | some cg' =>
      rw [buildIdsAux, hcg] at h
      rcases ih _ _ _ _ h with h' | ⟨t, ht, h1, h2⟩
      · rcases mem_dictInsert _ _ _ _ h' with h'' | h''
        · exact Or.inl h''
        · injection h'' with ha hb
          exact Or.inr ⟨s, by simp, hb, by rw [← ha] at hcg; exact hcg⟩
      · exact Or.inr ⟨t, List.mem_cons_of_mem _ ht, h1, h2⟩
    | none =>
      rw [buildIdsAux, hcg] at h
      rcases ih _ _ _ _ h with h' | ⟨t, ht, h1, h2⟩
      · exact Or.inl h'
      · exact Or.inr ⟨t, List.mem_cons_of_mem _ ht, h1, h2⟩

theorem buildIdsAux_dictFind (symbols : List String) :
    ∀ ids symbol_to_id cg,
      dictFind (buildIdsAux symbols ids symbol_to_id).2 cg =
        match lastMapped symbols cg with
        | some u => some u
        | none => dictFind symbol_to_id cg := by
  induction symbols with
  | nil => intro ids s2i cg; simp [buildIdsAux, lastMapped]
  | cons s rest ih =>
    intro ids s2i cg
    cases hcg : cgLookup (pyUpper s) with
    | some cg' =>
      rw [buildIdsAux, hcg, ih]
      cases hlast : lastMapped rest cg with
      | some u => simp [lastMapped, hlast]
      | none =>
        simp only [lastMapped, hlast, hcg]
        rw [dictFind_dictInsert]
        by_cases hc : cg = cg'
        · subst hc; simp
        · rw [if_neg hc, if_neg (by simpa [eq_comm] using hc)]
    | none =>
      rw [buildIdsAux, hcg, ih]
      cases hlast : lastMapped rest cg with
      | some u => simp [lastMapped, hlast]
      | none => simp [lastMapped, hlast, hcg]

theorem buildIds_dictFind (symbols : List String) (cg : String) :
    dictFind (buildIds symbols).2 cg = lastMapped symbols cg := by
  rw [buildIds, buildIdsAux_dictFind]
  cases lastMapped symbols cg <;> simp [dictFind]

theorem buildIds_find_prop (symbols : List String) (cg sym : String)
    (h : dictFind (buildIds symbols).2 cg = some sym) :
    cgLookup sym = some cg ∧ ∃ s ∈ symbols, sym = pyUpper s := by
  have hmem := dictFind_mem _ _ _ h
  rcases buildIdsAux_snd_mem symbols [] [] cg sym hmem with h' | ⟨s, hs, h1, h2⟩
  · simp at h'
  · exact ⟨by rw [h1]; exact h2, ⟨s, hs, h1⟩⟩

theorem parseResponse_mem (symbol_to_id : List (String × String))
    (response : List (String × Option ℚ)) :
    ∀ prices sym q, (sym, q) ∈ parseResponse symbol_to_id response prices →
      (sym, q) ∈ prices ∨
        ∃ cg, (cg, some q) ∈ response ∧ dictFind symbol_to_id cg = some sym := by
  induction response with
  | nil => intro prices sym q h; exact Or.inl (by simpa [parseResponse] using h)
  | cons entry rest ih =>
    intro prices sym q h
    obtain ⟨cg, usdOpt⟩ := entry
    cases usdOpt with
    | none =>
      rw [parseResponse] at h
      rcases ih _ _ _ h with h' | ⟨cg', h1, h2⟩
      · exact Or.inl h'
      · exact Or.inr ⟨cg', List.mem_cons_of_mem _ h1, h2⟩
    | some usd =>
      cases hf : dictFind symbol_to_id cg with
      | none =>
        rw [parseResponse, hf] at h
        exact Or.inl h
      | some symbol =>
        rw [parseResponse, hf] at h
        rcases ih _ _ _ h with h' | ⟨cg', h1, h2⟩
        · rcases mem_dictInsert _ _ _ _ h' with h'' | h''
          · exact Or.inl h''
          · injection h'' with ha hb
            subst ha; subst hb
            exact Or.inr ⟨cg, List.mem_cons_self _ _, hf⟩
        · exact Or.inr ⟨cg', List.mem_cons_of_mem _ h1, h2⟩

theorem get_token_prices_mem (symbols : List String)
    (response : List (String × Option ℚ)) (sym : String) (q : ℚ)
    (h : (sym, q) ∈ (get_token_prices symbols response).prices) :
    ∃ cg, (cg, some q) ∈ response ∧ dictFind (buildIds symbols).2 cg = some sym := by
  rw [get_token_prices] at h
  by_cases hids : ((buildIds symbols).1).isEmpty
  · rw [if_pos hids] at h
    simp at h
  · rw [if_neg hids] at h
    rcases parseResponse_mem _ _ _ _ _ h with h' | h'
    · simp at h'
    · exact h'

/-! ## Claim theorems for the price feed -/

/-- C9: batched price resolution requests exactly the ids of the mapped
symbols (an unmapped symbol is skipped, and an all-unmapped batch makes no
network call at all); every returned price comes from a response entry
carrying a usd field for a mapped symbol of the batch; and the batch
["ETH", "UNKNOWNXYZ"] against a response pricing "ethereum" at 2000 returns a
mapping containing only "ETH" instead of failing. -/
theorem C9_batch_resolution (symbols : List String)
    (response : List (String × Option ℚ)) :
    (get_token_prices symbols response).requested_ids
        = symbols.filterMap (fun s => cgLookup (pyUpper s)) ∧
    (∀ sym q, (sym, q) ∈ (get_token_prices symbols response).prices →
      (∃ cg, (cg, some q) ∈ response ∧ cgLookup sym = some cg) ∧
      ∃ s ∈ symbols, sym = pyUpper s) ∧
    get_token_prices ["ETH", "UNKNOWNXYZ"] [("ethereum", some 2000)]
      = { requested_ids := ["ethereum"], prices := [("ETH", 2000)] } := by
  refine ⟨?_, ?_, rfl⟩
  · rw [get_token_prices]
    by_cases hids : ((buildIds symbols).1).isEmpty
    · rw [if_pos hids]
      have h1 : (buildIds symbols).1 = [] := by simpa using hids
      rw [buildIds, buildIdsAux_fst] at h1
      simpa using h1.symm
    · rw [if_neg hids, buildIds, buildIdsAux_fst]
      simp
  · intro sym q h
    obtain ⟨cg, hresp, hfind⟩ := get_token_prices_mem symbols response sym q h
    obtain ⟨hcg, hs⟩ := buildIds_find_prop symbols cg sym hfind
    exact ⟨⟨cg, hresp, hcg⟩, hs⟩

/-- C9 witness: in the concrete batch, the returned "ETH" price comes from the
"ethereum" response entry and "ETH" is a mapped symbol of the batch. -/
theorem C9_batch_resolution_witness :
    (∃ cg, (cg, some (2000 : ℚ)) ∈ [("ethereum", some (2000 : ℚ))] ∧
      cgLookup "ETH" = some cg) ∧
    ∃ s ∈ ["ETH", "UNKNOWNXYZ"], "ETH" = pyUpper s :=
  (C9_batch_resolution ["ETH", "UNKNOWNXYZ"] [("ethereum", some 2000)]).2.1
    "ETH" 2000 (List.mem_cons_self _ _)

/-- C10: when two distinct input symbols share one CoinGecko id, the returned
mapping holds a price for at most one of them: distinct returned symbols never
share an id, every returned symbol is the LAST symbol of the batch mapping to
its id, and the batch ["ETH", "WETH"] (both mapped to "ethereum") returns a
price only for "WETH", silently dropping the earlier "ETH". -/
theorem C10_shared_id_later_wins (symbols : List String)
    (response : List (String × Option ℚ)) :
    (∀ sym1 sym2 q1 q2 cg,
      (sym1, q1) ∈ (get_token_prices symbols response).prices →
      (sym2, q2) ∈ (get_token_prices symbols response).prices →
      cgLookup sym1 = some cg → cgLookup sym2 = some cg → sym1 = sym2) ∧
    (∀ sym q cg, (sym, q) ∈ (get_token_prices symbols response).prices →
      cgLookup sym = some cg → lastMapped symbols cg = some sym) ∧
    (∀ p : ℚ, get_token_prices ["ETH", "WETH"] [("ethereum", some p)]
      = { requested_ids := ["ethereum", "ethereum"], prices := [("WETH", p)] }) := by
  have key : ∀ sym q cg, (sym, q) ∈ (get_token_prices symbols response).prices →
      cgLookup sym = some cg → dictFind (buildIds symbols).2 cg = some sym := by
    intro sym q cg h hcg
    obtain ⟨cg', hresp, hfind⟩ := get_token_prices_mem symbols response sym q h
    have hcg' := (buildIds_find_prop symbols cg' sym hfind).1
    rw [hcg] at hcg'
    injection hcg' with hcc
    rw [hcc]; exact hfind
  refine ⟨?_, ?_, fun p => rfl⟩
  · intro sym1 sym2 q1 q2 cg h1 h2 hc1 hc2
    have k1 := key sym1 q1 cg h1 hc1
    have k2 := key sym2 q2 cg h2 hc2
    rw [k1] at k2
    exact Option.some.inj k2
  · intro sym q cg h hcg
    rw [← buildIds_dictFind]
    exact key sym q cg h hcg

/-- C10 witness: in the concrete batch ["ETH", "WETH"], the returned symbol
"WETH" is the last symbol of the batch mapping to "ethereum". -/
theorem C10_shared_id_later_wins_witness :
    lastMapped ["ETH", "WETH"] "ethereum" = some "WETH" :=
  (C10_shared_id_later_wins ["ETH", "WETH"] [("ethereum", some 2000)]).2.1
    "WETH" 2000 "ethereum" (List.mem_cons_self _ _) rfl

end LendingSentinel
